import Mathlib

set_option maxRecDepth 2000

/-!
# Verification of the GPACalculator client crypto pipeline

Shallow embedding of the repository's two JavaScript files (`crypto.js`,
here called the main file, and `crypto-alternative.js`) and proofs of the
specification claims about them.

Bytes are modelled as `Nat` values below 256 in `List Nat`; 32-bit machine
arithmetic is `Nat` with explicit `% 4294967296`.  Platform primitives the
code calls through the Web Crypto API (SHA-256, PBKDF2/HMAC-SHA-256) are
implemented concretely from their standards, since the code relies on their
standard semantics; the AES-GCM AEAD primitive is a parameter of `decrypt`,
so the theorems about the wrapper hold for every primitive behaviour.
-/

/-! ## 32-bit word arithmetic -/

/-- Truncation to a 32-bit word. -/
def w32 (n : Nat) : Nat := n % 4294967296

/-- Right rotation of a 32-bit word (operand assumed `< 2^32`). -/
def rotr32 (n x : Nat) : Nat := (x >>> n) ||| w32 (x <<< (32 - n))

/-- Bitwise complement of a 32-bit word. -/
def not32 (x : Nat) : Nat := x ^^^ 4294967295

/-! ## SHA-256 (FIPS 180-4), as invoked through `crypto.subtle.digest` -/

/-- The eight SHA-256 initial hash values, as a record so that the final
digest length is visible by construction. -/
structure Sha256State where
  a : Nat
  b : Nat
  c : Nat
  d : Nat
  e : Nat
  f : Nat
  g : Nat
  h : Nat

/-- SHA-256 initial state `H0` (the FIPS 180-4 words, written in decimal). -/
def sha256Init : Sha256State :=
  ⟨1779033703, 3144134277, 1013904242, 2773480762,
   1359893119, 2600822924, 528734635, 1541459225⟩

/-- The 64 SHA-256 round constants (FIPS 180-4 §4.2.2, written in decimal). -/
def sha256K : List Nat :=
  [1116352408, 1899447441, 3049323471, 3921009573, 961987163, 1508970993,
   2453635748, 2870763221, 3624381080, 310598401, 607225278, 1426881987,
   1925078388, 2162078206, 2614888103, 3248222580, 3835390401, 4022224774,
   264347078, 604807628, 770255983, 1249150122, 1555081692, 1996064986,
   2554220882, 2821834349, 2952996808, 3210313671, 3336571891, 3584528711,
   113926993, 338241895, 666307205, 773529912, 1294757372, 1396182291,
   1695183700, 1986661051, 2177026350, 2456956037, 2730485921, 2820302411,
   3259730800, 3345764771, 3516065817, 3600352804, 4094571909, 275423344,
   430227734, 506948616, 659060556, 883997877, 958139571, 1322822218,
   1537002063, 1747873779, 1955562222, 2024104815, 2227730452, 2361852424,
   2428436474, 2756734187, 3204031479, 3329325298]

/-- Big-endian 4-byte serialization of a 32-bit word. -/
def be32 (n : Nat) : List Nat :=
  [n / 16777216 % 256, n / 65536 % 256, n / 256 % 256, n % 256]

/-- Big-endian 8-byte serialization of a 64-bit word. -/
def be64 (n : Nat) : List Nat :=
  [n / 72057594037927936 % 256, n / 281474976710656 % 256,
   n / 1099511627776 % 256, n / 4294967296 % 256,
   n / 16777216 % 256, n / 65536 % 256, n / 256 % 256, n % 256]

/-- SHA-256 padding: `0x80`, zeros, then the 64-bit big-endian bit length,
bringing the total to a multiple of 64 bytes. -/
def sha256Pad (msg : List Nat) : List Nat :=
  let l := msg.length
  msg ++ [0x80] ++ List.replicate ((64 - (l + 9) % 64) % 64) 0 ++ be64 (8 * l)

/-- Split a byte list into 64-byte chunks (fuel-based so kernel reduction
works; the fuel `l.length` always suffices). -/
def chunks64Aux : Nat → List Nat → List (List Nat)
  | 0, _ => []
  | _, [] => []
  | fuel + 1, l => l.take 64 :: chunks64Aux fuel (l.drop 64)

/-- Split a byte list into 64-byte chunks. -/
def chunks64 (l : List Nat) : List (List Nat) := chunks64Aux l.length l

/-- Parse big-endian 32-bit words from bytes. -/
def toWords : List Nat → List Nat
  | b0 :: b1 :: b2 :: b3 :: rest =>
      (((b0 * 256 + b1) * 256 + b2) * 256 + b3) :: toWords rest
  | _ => []

/-- σ₀ message-schedule function. -/
def ssig0 (x : Nat) : Nat := rotr32 7 x ^^^ rotr32 18 x ^^^ (x >>> 3)

/-- σ₁ message-schedule function. -/
def ssig1 (x : Nat) : Nat := rotr32 17 x ^^^ rotr32 19 x ^^^ (x >>> 10)

/-- Σ₀ compression function. -/
def bsig0 (x : Nat) : Nat := rotr32 2 x ^^^ rotr32 13 x ^^^ rotr32 22 x

/-- Σ₁ compression function. -/
def bsig1 (x : Nat) : Nat := rotr32 6 x ^^^ rotr32 11 x ^^^ rotr32 25 x

/-- Extend the 16-word schedule by `k` further words. -/
def wExtend : Nat → List Nat → List Nat
  | 0, ws => ws
  | k + 1, ws =>
      let n := ws.length
      wExtend k (ws ++ [w32 (ssig1 (ws.getD (n - 2) 0) + ws.getD (n - 7) 0 +
        ssig0 (ws.getD (n - 15) 0) + ws.getD (n - 16) 0)])

/-- One SHA-256 round. -/
def sha256Round (s : Sha256State) (k w : Nat) : Sha256State :=
  let t1 := w32 (s.h + bsig1 s.e + ((s.e &&& s.f) ^^^ (not32 s.e &&& s.g)) + k + w)
  let t2 := w32 (bsig0 s.a + ((s.a &&& s.b) ^^^ (s.a &&& s.c) ^^^ (s.b &&& s.c)))
  ⟨w32 (t1 + t2), s.a, s.b, s.c, w32 (s.d + t1), s.e, s.f, s.g⟩

/-- Compress one 64-byte block into the running state. -/
def sha256Compress (s : Sha256State) (block : List Nat) : Sha256State :=
  let ws := wExtend 48 (toWords block)
  let t := (sha256K.zip ws).foldl (fun st p => sha256Round st p.1 p.2) s
  ⟨w32 (s.a + t.a), w32 (s.b + t.b), w32 (s.c + t.c), w32 (s.d + t.d),
   w32 (s.e + t.e), w32 (s.f + t.f), w32 (s.g + t.g), w32 (s.h + t.h)⟩

/-- SHA-256 of a byte list, as a 32-byte list. -/
def sha256 (msg : List Nat) : List Nat :=
  let s := (chunks64 (sha256Pad msg)).foldl sha256Compress sha256Init
  be32 s.a ++ be32 s.b ++ be32 s.c ++ be32 s.d ++
  be32 s.e ++ be32 s.f ++ be32 s.g ++ be32 s.h

/-- The digest is always 32 bytes. -/
theorem sha256_length (msg : List Nat) : (sha256 msg).length = 32 := by
  simp [sha256, be32]

/-! ## UTF-8 encoding (`TextEncoder`) and uppercase hex rendering -/

/-- UTF-8 encoding of one Unicode scalar value. -/
def encodeChar (c : Char) : List Nat :=
  let n := c.toNat
  if n < 128 then [n]
  else if n < 2048 then [192 + n / 64, 128 + n % 64]
  else if n < 65536 then [224 + n / 4096, 128 + n / 64 % 64, 128 + n % 64]
  else [240 + n / 262144, 128 + n / 4096 % 64, 128 + n / 64 % 64, 128 + n % 64]

/-- `TextEncoder.encode`: UTF-8 bytes of a string. -/
def utf8Encode (s : String) : List Nat := (s.data.map encodeChar).flatten

/-- The sixteen uppercase hex digits. -/
def hexDigits : List Char :=
  ['0', '1', '2', '3', '4', '5', '6', '7', '8', '9', 'A', 'B', 'C', 'D', 'E', 'F']

/-- Two uppercase hex characters for one byte — the JS
`b.toString(16).padStart(2, "0").toUpperCase()` step. -/
def byteToHex (b : Nat) : List Char :=
  [hexDigits.getD (b / 16) '0', hexDigits.getD (b % 16) '0']

/-- Uppercase hex rendering of a byte list. -/
def hexUpper (l : List Nat) : String := String.mk (l.map byteToHex).flatten

/-- Hex rendering doubles the length. -/
theorem hexUpper_length (l : List Nat) : (hexUpper l).length = 2 * l.length := by
  induction l with
  | nil => rfl
  | cons b t ih =>
      simp only [hexUpper, String.length, List.map_cons, List.flatten_cons] at *
      simp [byteToHex] at *
      omega

example : hexUpper (sha256 (utf8Encode "abc")) =
    "BA7816BF8F01CFEA414140DE5DAE2223B00361A396177A9CB410FF61F20015AD" := by decide

/-! ## Constants of the source file (`crypto.js`, top of file) -/

/-- `const PBKDF2_ITERATIONS = 100000`. -/
def PBKDF2_ITERATIONS : Nat := 100000

/-- `const KEY_LENGTH = 256` (bits). -/
def KEY_LENGTH : Nat := 256

/-- `const GCM_IV_LENGTH = 12` (bytes). -/
def GCM_IV_LENGTH : Nat := 12

/-- `const GCM_TAG_LENGTH = 128` (bits). -/
def GCM_TAG_LENGTH : Nat := 128

/-! ## `getHash` and `getEncryptedFilename` -/

/-- `getHash(index)`: uppercase hex SHA-256 of the UTF-8 bytes of `index`. -/
def getHash (index : String) : String := hexUpper (sha256 (utf8Encode index))

/-- `getEncryptedFilename(index, id)`: uppercase hex SHA-256 of
`index + "|" + id`, with `".enc"` appended. -/
def getEncryptedFilename (index id : String) : String :=
  hexUpper (sha256 (utf8Encode (index ++ "|" ++ id))) ++ ".enc"

/-- `getHash` output is 64 characters. -/
theorem getHash_length (index : String) : (getHash index).length = 64 := by
  simp [getHash, hexUpper_length, sha256_length]

/-- `getEncryptedFilename` output is 68 characters (64 hex + `".enc"`). -/
theorem getEncryptedFilename_length (index id : String) :
    (getEncryptedFilename index id).length = 68 := by
  simp [getEncryptedFilename, String.length_append, hexUpper_length, sha256_length]
  rfl

/-! ## HMAC-SHA-256 and PBKDF2 (the Web Crypto `deriveKey` primitive) -/

/-- Bytewise xor of two equal-length byte lists. -/
def zipXor (a b : List Nat) : List Nat := List.zipWith Nat.xor a b

/-- HMAC-SHA-256 (FIPS 198-1) with 64-byte block size. -/
def hmacSha256 (key msg : List Nat) : List Nat :=
  let k0 := if 64 < key.length then sha256 key else key
  let kp := k0 ++ List.replicate (64 - k0.length) 0
  sha256 ((kp.map (Nat.xor 0x5c)) ++ sha256 ((kp.map (Nat.xor 0x36)) ++ msg))

/-- HMAC-SHA-256 always yields 32 bytes. -/
theorem hmacSha256_length (key msg : List Nat) : (hmacSha256 key msg).length = 32 :=
  sha256_length _

/-- The xor-accumulation loop of PBKDF2: `k` further iterations beyond `U1`,
carrying the last `U` and the running xor `t`. -/
def pbkdf2Iter (password : Nat → List Nat → List Nat) : Nat → List Nat → List Nat → List Nat
  | 0, _, t => t
  | k + 1, u, t =>
      let u1 := password 0 u
      pbkdf2Iter password k u1 (zipXor t u1)

/-- One PBKDF2 block `T_i = U1 ⊕ … ⊕ Uc` with `U1 = PRF(P, S ‖ INT(i))`
(RFC 2898 §5.2), PRF = HMAC-SHA-256. -/
def pbkdf2Block (password salt : List Nat) (c i : Nat) : List Nat :=
  let u1 := hmacSha256 password (salt ++ be32 i)
  pbkdf2Iter (fun _ u => hmacSha256 password u) (c - 1) u1 u1

/-- PBKDF2-HMAC-SHA-256 with `c` iterations producing `dkLen` bytes. -/
def pbkdf2HmacSha256 (password salt : List Nat) (c dkLen : Nat) : List Nat :=
  (((List.range ((dkLen + 31) / 32)).map
      (fun j => pbkdf2Block password salt c (j + 1))).flatten).take dkLen

theorem pbkdf2Iter_length (f : Nat → List Nat → List Nat) (k : Nat) (u t : List Nat)
    (hf : ∀ n v, (f n v).length = 32) (ht : t.length = 32) :
    (pbkdf2Iter f k u t).length = 32 := by
  induction k generalizing u t with
  | zero => exact ht
  | succ k ih =>
      simp only [pbkdf2Iter]
      exact ih _ _ (by simp [zipXor, ht, hf])

/-- Each PBKDF2 block is 32 bytes. -/
theorem pbkdf2Block_length (password salt : List Nat) (c i : Nat) :
    (pbkdf2Block password salt c i).length = 32 :=
  pbkdf2Iter_length _ _ _ _ (fun _ _ => hmacSha256_length _ _) (hmacSha256_length _ _)

/-- A 32-byte PBKDF2 output really has 32 bytes. -/
theorem pbkdf2HmacSha256_length_32 (password salt : List Nat) (c : Nat) :
    (pbkdf2HmacSha256 password salt c 32).length = 32 := by
  simp [pbkdf2HmacSha256, List.range_succ, pbkdf2Block_length]

/-! ## `getKey`: the derived `CryptoKey` -/

/-- Model of the Web Crypto `CryptoKey` object produced by
`crypto.subtle.deriveKey`: its algorithm binding, extractability, allowed
usages, and the underlying derived bits. -/
structure CryptoKey where
  algName : String
  algLength : Nat
  extractable : Bool
  usages : List String
  material : List Nat
deriving DecidableEq

/-- `getKey(id, index)`: imports `id` as PBKDF2 password material and derives
a non-extractable AES-GCM key with salt `index`, `PBKDF2_ITERATIONS`
iterations, hash SHA-256, length `KEY_LENGTH` bits, usages
`["decrypt", "encrypt"]`. -/
def getKey (id index : String) : CryptoKey :=
  { algName := "AES-GCM"
    algLength := KEY_LENGTH
    extractable := false
    usages := ["decrypt", "encrypt"]
    material := pbkdf2HmacSha256 (utf8Encode id) (utf8Encode index)
      PBKDF2_ITERATIONS (KEY_LENGTH / 8) }

/-! ## UTF-8 decoding (`new TextDecoder("utf-8")`, non-fatal default)

The WHATWG decoder never throws in non-fatal mode: each malformed sequence
is replaced by U+FFFD and decoding restarts at the offending byte. -/

/-- Is `b` a UTF-8 continuation byte? -/
def isCont (b : Nat) : Bool := 128 ≤ b && b ≤ 191

/-- The replacement character U+FFFD. -/
def fffd : Char := Char.ofNat 65533

/-- Fuel-based WHATWG UTF-8 decoder body; every step consumes at least one
byte, so fuel equal to the list length suffices. -/
def utf8DecodeGo : Nat → List Nat → List Char
  | 0, _ => []
  | _ + 1, [] => []
  | fuel + 1, b :: rest =>
    if b < 128 then Char.ofNat b :: utf8DecodeGo fuel rest
    else if 194 ≤ b && b ≤ 223 then
      match rest with
      | [] => [fffd]
      | b1 :: rest1 =>
          if isCont b1 then
            Char.ofNat ((b - 192) * 64 + (b1 - 128)) :: utf8DecodeGo fuel rest1
          else fffd :: utf8DecodeGo fuel rest
    else if 224 ≤ b && b ≤ 239 then
      let lo1 := if b = 224 then 160 else 128
      let hi1 := if b = 237 then 159 else 191
      match rest with
      | [] => [fffd]
      | b1 :: rest1 =>
          if lo1 ≤ b1 && b1 ≤ hi1 then
            match rest1 with
            | [] => [fffd]
            | b2 :: rest2 =>
                if isCont b2 then
                  Char.ofNat ((b - 224) * 4096 + (b1 - 128) * 64 + (b2 - 128)) ::
                    utf8DecodeGo fuel rest2
                else fffd :: utf8DecodeGo fuel rest1
          else fffd :: utf8DecodeGo fuel rest
    else if 240 ≤ b && b ≤ 244 then
      let lo1 := if b = 240 then 144 else 128
      let hi1 := if b = 244 then 143 else 191
      match rest with
      | [] => [fffd]
      | b1 :: rest1 =>
          if lo1 ≤ b1 && b1 ≤ hi1 then
            match rest1 with
            | [] => [fffd]
            | b2 :: rest2 =>
                if isCont b2 then
                  match rest2 with
                  | [] => [fffd]
                  | b3 :: rest3 =>
                      if isCont b3 then
                        Char.ofNat ((b - 240) * 262144 + (b1 - 128) * 4096 +
                          (b2 - 128) * 64 + (b3 - 128)) :: utf8DecodeGo fuel rest3
                      else fffd :: utf8DecodeGo fuel rest2
                else fffd :: utf8DecodeGo fuel rest1
          else fffd :: utf8DecodeGo fuel rest
    else fffd :: utf8DecodeGo fuel rest

/-- `TextDecoder("utf-8").decode` with the non-fatal default: total, with
U+FFFD replacement for malformed input. -/
def utf8DecodeLossy (l : List Nat) : String := String.mk (utf8DecodeGo l.length l)

/-- Strict UTF-8 well-formedness of a byte list. -/
def validUtf8 : List Nat → Bool
  | [] => true
  | b :: rest =>
    if b < 128 then validUtf8 rest
    else if 194 ≤ b && b ≤ 223 then
      match rest with
      | [] => false
      | b1 :: rest1 => isCont b1 && validUtf8 rest1
    else if 224 ≤ b && b ≤ 239 then
      match rest with
      | [] => false
      | b1 :: rest1 =>
          match rest1 with
          | [] => false
          | b2 :: rest2 =>
              (decide ((if b = 224 then 160 else 128) ≤ b1) &&
               decide (b1 ≤ if b = 237 then 159 else 191)) &&
              isCont b2 && validUtf8 rest2
    else if 240 ≤ b && b ≤ 244 then
      match rest with
      | [] => false
      | b1 :: rest1 =>
          match rest1 with
          | [] => false
          | b2 :: rest2 =>
              match rest2 with
              | [] => false
              | b3 :: rest3 =>
                  (decide ((if b = 240 then 144 else 128) ≤ b1) &&
                   decide (b1 ≤ if b = 244 then 143 else 191)) &&
                  isCont b2 && isCont b3 && validUtf8 rest3
    else false

/-! ## `decrypt`: the AEAD wrapper

The AES-GCM primitive itself is the Web Crypto implementation; the wrapper
is modelled for an arbitrary primitive of its shape, so every theorem below
holds regardless of the primitive's behaviour.  `none` stands for the
`OperationError` the platform throws on authentication-tag mismatch. -/

/-- Shape of the `crypto.subtle.decrypt` AEAD primitive: key material, IV,
tag length in bits, additional authenticated data, ciphertext (tag
included) — plaintext bytes, or `none` on tag-verification failure. -/
def Aead : Type := List Nat → List Nat → Nat → List Nat → List Nat → Option (List Nat)

/-- The error kinds `decrypt` can surface, one per distinct message built in
its `catch` block. -/
inductive DecryptError where
  | malformedBlob
  | authenticationFailure
deriving DecidableEq

/-- The user-facing message text attached to each error kind in the source's
`catch` block. -/
def decryptErrorMessage : DecryptError → String
  | .malformedBlob => "Invalid encrypted file format: File is too small."
  | .authenticationFailure =>
      "Decryption failed: Invalid credentials or corrupted file. The authentication tag verification failed."

/-- `decrypt(key, encryptedData)`: rejects blobs shorter than
`GCM_IV_LENGTH`; otherwise splits off the 12-byte IV, passes the whole
remainder (tag included) to AES-GCM with `tagLength: GCM_TAG_LENGTH` and no
additional data, and decodes the result as UTF-8. -/
def decrypt (aead : Aead) (key : CryptoKey) (encryptedData : List Nat) :
    Except DecryptError String :=
  if encryptedData.length < GCM_IV_LENGTH then
    .error .malformedBlob
  else
    match aead key.material (encryptedData.take GCM_IV_LENGTH) GCM_TAG_LENGTH []
        (encryptedData.drop GCM_IV_LENGTH) with
    | none => .error .authenticationFailure
    | some pt => .ok (utf8DecodeLossy pt)

/-! ## JS string operations used by the submit handlers -/

/-- The WhiteSpace and LineTerminator code points trimmed by JS
`String.prototype.trim`. -/
def wsChars : List Char :=
  [' ', '\t', '\n', '\r', Char.ofNat 11, Char.ofNat 12, Char.ofNat 160,
   Char.ofNat 5760, Char.ofNat 8192, Char.ofNat 8193, Char.ofNat 8194,
   Char.ofNat 8195, Char.ofNat 8196, Char.ofNat 8197, Char.ofNat 8198,
   Char.ofNat 8199, Char.ofNat 8200, Char.ofNat 8201, Char.ofNat 8202,
   Char.ofNat 8232, Char.ofNat 8233, Char.ofNat 8239, Char.ofNat 8287,
   Char.ofNat 12288, Char.ofNat 65279]

/-- Is `c` JS whitespace? -/
def isJsWs (c : Char) : Bool := wsChars.contains c

/-- `trim` on the character list: drop whitespace from both ends. -/
def jsTrimList (l : List Char) : List Char :=
  ((l.dropWhile isJsWs).reverse.dropWhile isJsWs).reverse

/-- JS `String.prototype.trim`. -/
def jsTrim (s : String) : String := String.mk (jsTrimList s.data)

/-- JS `String.prototype.toLowerCase` (ASCII fragment, which is all the
classification prefixes use). -/
def jsToLower (s : String) : String := String.mk (s.data.map Char.toLower)

/-- Prefix test on character lists. -/
def isPrefList : List Char → List Char → Bool
  | [], _ => true
  | _ :: _, [] => false
  | a :: as, b :: bs => a == b && isPrefList as bs

/-- JS `String.prototype.startsWith`. -/
def strStartsWith (s p : String) : Bool := isPrefList p.data s.data

/-- The two content classifications the handlers distinguish. -/
inductive ContentClass where
  | markup
  | text
deriving DecidableEq

/-- The handlers' classification test:
`content.trim().toLowerCase().startsWith("<!doctype") || …startsWith("<html")`. -/
def classify (content : String) : ContentClass :=
  if strStartsWith (jsToLower (jsTrim content)) "<!doctype" ||
      strStartsWith (jsToLower (jsTrim content)) "<html" then
    ContentClass.markup
  else
    ContentClass.text

/-! ## `fetchFile` and the two submit handlers

The network (`fetch`) is a parameter: a function from URL to response.  The
DOM side effects of each handler are modelled as the state the handler
leaves behind after one run started from the page's default state. -/

/-- The fixed URL root the source interpolates the filename into. -/
def baseUrl : String := "https://pasinduravimal.github.io/GPACalculator/files/"

/-- What the browser `fetch` returns for a URL. -/
structure FetchResponse where
  ok : Bool
  status : Nat
  statusText : String
  body : List Nat
deriving DecidableEq

/-- The network capability consumed by `fetchFile`. -/
def Net : Type := String → FetchResponse

/-- `fetchFile(filename)`: request `baseUrl + filename`; on non-ok status
throw `Failed to fetch file: ${status} ${statusText}`, else return the body
bytes. -/
def fetchFile (net : Net) (filename : String) : Except String (List Nat) :=
  let r := net (baseUrl ++ filename)
  if r.ok then Except.ok r.body
  else Except.error ("Failed to fetch file: " ++ toString r.status ++ " " ++ r.statusText)

/-- A pipeline failure: either the fetch step's thrown message or the
decrypt step's error kind. -/
inductive PipeError where
  | fetchStep (msg : String)
  | decryptStep (e : DecryptError)
deriving DecidableEq

/-- `error.message` as the handler's catch block reads it. -/
def pipeErrorMessage : PipeError → String
  | .fetchStep m => m
  | .decryptStep e => decryptErrorMessage e

/-- The value/error produced by the main handler's `try` block:
filename → fetch → key → decrypt, each step only reached when every
earlier step succeeded. -/
def runResult (net : Net) (aead : Aead) (indexNumber id : String) :
    Except PipeError String :=
  match fetchFile net (getEncryptedFilename indexNumber id) with
  | .error m => .error (.fetchStep m)
  | .ok encryptedData =>
      match decrypt aead (getKey id indexNumber) encryptedData with
      | .error e => .error (.decryptStep e)
      | .ok decryptedContent => .ok decryptedContent

/-- The nodes the main handler appends into the content area. -/
inductive ContentNode where
  | backButton
  | iframeDoc (doc : String)
  | preText (t : String)
deriving DecidableEq

/-- The DOM state the main handler manipulates. -/
structure UIState where
  loadingShown : Bool
  errorShown : Bool
  errorText : String
  contentShown : Bool
  contentChildren : List ContentNode
  submitDisabled : Bool
  formHidden : Bool
  containerExpanded : Bool
deriving DecidableEq

/-- The handler's initial reset: loading on, error and content hidden,
content cleared, submit disabled. -/
def resetUI : UIState :=
  { loadingShown := true
    errorShown := false
    errorText := ""
    contentShown := false
    contentChildren := []
    submitDisabled := true
    formHidden := false
    containerExpanded := false }

/-- The main handler body after input trimming: the `try` block renders
either the iframe (markup) or a `<pre>` (text) behind a back button, the
`catch` block surfaces `Error: ${error.message}`, and the `finally` block
unconditionally hides the loading indicator and re-enables submit. -/
def runMainTrimmed (net : Net) (aead : Aead) (indexNumber id : String) : UIState :=
  let st := resetUI
  let st :=
    match runResult net aead indexNumber id with
    | .ok decryptedContent =>
        { st with
          containerExpanded := true
          formHidden := true
          contentChildren :=
            ContentNode.backButton ::
              (match classify decryptedContent with
               | .markup => [ContentNode.iframeDoc decryptedContent]
               | .text => [ContentNode.preText decryptedContent])
          contentShown := true }
    | .error e =>
        { st with errorShown := true, errorText := "Error: " ++ pipeErrorMessage e }
  { st with loadingShown := false, submitDisabled := false }

/-- The main (`crypto.js`) submit handler: trims both form values, then runs
the pipeline. -/
def runMain (net : Net) (aead : Aead) (rawIndex rawId : String) : UIState :=
  runMainTrimmed net aead (jsTrim rawIndex) (jsTrim rawId)

/-- The alternative handler's `try` block value: it fetches `getHash(index)`
— not `getEncryptedFilename(index, id)` — then derives and decrypts. -/
def runAltResult (net : Net) (aead : Aead) (indexNumber id : String) :
    Except PipeError String :=
  match fetchFile net (getHash indexNumber) with
  | .error m => .error (.fetchStep m)
  | .ok encryptedData =>
      match decrypt aead (getKey id indexNumber) encryptedData with
      | .error e => .error (.decryptStep e)
      | .ok decryptedContent => .ok decryptedContent

/-- The DOM state for the alternative handler; `pageReplacedWith` models its
OPTION A `document.write` replacing the whole page for markup content. -/
structure AltUIState where
  loadingShown : Bool
  errorShown : Bool
  errorText : String
  contentShown : Bool
  contentChildren : List ContentNode
  submitDisabled : Bool
  formHidden : Bool
  containerExpanded : Bool
  pageReplacedWith : Option String
deriving DecidableEq

/-- The alternative handler's initial reset. -/
def resetAltUI : AltUIState :=
  { loadingShown := true
    errorShown := false
    errorText := ""
    contentShown := false
    contentChildren := []
    submitDisabled := true
    formHidden := false
    containerExpanded := false
    pageReplacedWith := none }

/-- The alternative handler body after input trimming. -/
def runAltTrimmed (net : Net) (aead : Aead) (indexNumber id : String) : AltUIState :=
  let st := resetAltUI
  let st :=
    match runAltResult net aead indexNumber id with
    | .ok decryptedContent =>
        match classify decryptedContent with
        | .markup => { st with pageReplacedWith := some decryptedContent }
        | .text =>
            { st with
              containerExpanded := true
              formHidden := true
              contentChildren := [ContentNode.backButton, ContentNode.preText decryptedContent]
              contentShown := true }
    | .error e =>
        { st with errorShown := true, errorText := "Error: " ++ pipeErrorMessage e }
  { st with loadingShown := false, submitDisabled := false }

/-- The alternative (`crypto-alternative.js`) submit handler: trims both
form values, then runs its pipeline. -/
def runAlt (net : Net) (aead : Aead) (rawIndex rawId : String) : AltUIState :=
  runAltTrimmed net aead (jsTrim rawIndex) (jsTrim rawId)

/-! ## Concrete fixtures used to instantiate the theorems -/

/-- An AEAD primitive that rejects every ciphertext. -/
def aeadNone : Aead := fun _ _ _ _ _ => none

/-- An AEAD primitive that accepts every ciphertext and recovers the single
byte `0xFF` — a plaintext AES-GCM can genuinely produce, since in counter
mode every byte string is a possible plaintext. -/
def aeadFF : Aead := fun _ _ _ _ _ => some [255]

/-- A concrete key object (material irrelevant to the wrapper claims). -/
def key0 : CryptoKey :=
  { algName := "AES-GCM"
    algLength := 256
    extractable := false
    usages := ["decrypt", "encrypt"]
    material := [] }

/-- A 12-byte blob: IV only, empty ciphertext. -/
def blob12 : List Nat := List.replicate 12 0

/-- A network that answers status 404 with text `"A"` exactly at the URL the
alternative handler requests for index `"2020123"`, and 404 `"B"`
elsewhere. -/
def altNet1 : Net := fun u =>
  if u = baseUrl ++ getHash "2020123" then
    { ok := false, status := 404, statusText := "A", body := [] }
  else
    { ok := false, status := 404, statusText := "B", body := [] }

/-- A network that answers status 404 with text `"B"` everywhere. -/
def altNet2 : Net := fun _ =>
  { ok := false, status := 404, statusText := "B", body := [] }

/-- A network pair agreeing exactly at the main handler's locator URL for
identity `("2020123", "987654321")` and differing elsewhere. -/
def mainNet1 : Net := fun u =>
  if u = baseUrl ++ getEncryptedFilename "2020123" "987654321" then
    { ok := false, status := 404, statusText := "C", body := [] }
  else
    { ok := false, status := 404, statusText := "D", body := [] }

/-- Second half of the pair: same answer at the locator URL, a different one
elsewhere. -/
def mainNet2 : Net := fun u =>
  if u = baseUrl ++ getEncryptedFilename "2020123" "987654321" then
    { ok := false, status := 404, statusText := "C", body := [] }
  else
    { ok := false, status := 500, statusText := "E", body := [] }

/-! ## Claims C2, C3, C6, C5 — the `decrypt` wrapper -/

/-- C2: every blob shorter than 12 bytes is rejected as malformed, and the
result does not depend on the AEAD primitive at all — the cipher is never
consulted below 12 bytes. -/
theorem short_blob_rejected (aead aead2 : Aead) (key : CryptoKey) (blob : List Nat)
    (h : blob.length < 12) :
    decrypt aead key blob = Except.error DecryptError.malformedBlob ∧
    decrypt aead key blob = decrypt aead2 key blob := by
  constructor <;> simp [decrypt, GCM_IV_LENGTH, h]

theorem short_blob_rejected_witness :
    ([0, 1, 2] : List Nat).length < 12 ∧
    (decrypt aeadFF key0 [0, 1, 2] = Except.error DecryptError.malformedBlob ∧
     decrypt aeadFF key0 [0, 1, 2] = decrypt aeadNone key0 [0, 1, 2]) :=
  ⟨by decide, short_blob_rejected aeadFF aeadNone key0 [0, 1, 2] (by decide)⟩

/-- C3: for a blob of at least 12 bytes, the nonce is exactly bytes
`[0, 12)`, the whole remainder (tag included) is the ciphertext handed to
the AEAD primitive with a 128-bit tag length and empty associated data, and
nothing of the blob is dropped. -/
theorem decrypt_split_nonce_ciphertext (aead : Aead) (key : CryptoKey) (blob : List Nat)
    (h : 12 ≤ blob.length) :
    decrypt aead key blob =
      (match aead key.material (blob.take 12) 128 [] (blob.drop 12) with
       | none => Except.error DecryptError.authenticationFailure
       | some pt => Except.ok (utf8DecodeLossy pt)) ∧
    (blob.take 12).length = 12 ∧
    blob.take 12 ++ blob.drop 12 = blob := by
  refine ⟨?_, ?_, List.take_append_drop _ _⟩
  · simp [decrypt, GCM_IV_LENGTH, GCM_TAG_LENGTH, Nat.not_lt.mpr h]
  · simp only [List.length_take]
    omega

theorem decrypt_split_nonce_ciphertext_witness :
    decrypt aeadFF key0 blob12 =
      (match aeadFF key0.material (blob12.take 12) 128 [] (blob12.drop 12) with
       | none => Except.error DecryptError.authenticationFailure
       | some pt => Except.ok (utf8DecodeLossy pt)) ∧
    (blob12.take 12).length = 12 ∧
    blob12.take 12 ++ blob12.drop 12 = blob12 :=
  decrypt_split_nonce_ciphertext aeadFF key0 blob12 (by decide)

/-- C6: whenever the AEAD primitive rejects a well-formed blob — the
primitive is told nothing about whether the key or the data is at fault —
`decrypt` fails with the one constant `authenticationFailure` kind, whose
caller-facing message names both possible causes without distinguishing
them. -/
theorem auth_failure_single_kind (aead : Aead) (key : CryptoKey) (blob : List Nat)
    (h : 12 ≤ blob.length)
    (hnone : aead key.material (blob.take 12) 128 [] (blob.drop 12) = none) :
    decrypt aead key blob = Except.error DecryptError.authenticationFailure ∧
    decryptErrorMessage DecryptError.authenticationFailure =
      "Decryption failed: Invalid credentials or corrupted file. The authentication tag verification failed." := by
  refine ⟨?_, rfl⟩
  simp [decrypt, GCM_IV_LENGTH, GCM_TAG_LENGTH, Nat.not_lt.mpr h, hnone]

theorem auth_failure_single_kind_witness :
    decrypt aeadNone key0 blob12 = Except.error DecryptError.authenticationFailure ∧
    decryptErrorMessage DecryptError.authenticationFailure =
      "Decryption failed: Invalid credentials or corrupted file. The authentication tag verification failed." :=
  auth_failure_single_kind aeadNone key0 blob12 (by decide) rfl

/-- C5 counterexample: the byte sequence `[0xFF]` is not valid UTF-8, yet a
successful authenticated decryption recovering it makes `decrypt` return an
`ok` string (U+FFFD) — it does not fail with any encoding error kind, and
`DecryptError` has no such kind. -/
theorem decode_lossy_counterexample :
    validUtf8 [255] = false ∧
    decrypt aeadFF key0 blob12 = Except.ok (String.mk [fffd]) := by
  exact ⟨rfl, rfl⟩

/-- C5 amended: on successful authenticated decryption the recovered bytes
are decoded by the non-fatal UTF-8 decoder, which is total: invalid
sequences become U+FFFD and the result is always `ok` — there is no
distinct `EncodingFailure`. -/
theorem decode_lossy_amended (aead : Aead) (key : CryptoKey) (blob pt : List Nat)
    (h : 12 ≤ blob.length)
    (hsome : aead key.material (blob.take 12) 128 [] (blob.drop 12) = some pt) :
    decrypt aead key blob = Except.ok (utf8DecodeLossy pt) := by
  simp [decrypt, GCM_IV_LENGTH, GCM_TAG_LENGTH, Nat.not_lt.mpr h, hsome]

theorem decode_lossy_amended_witness :
    decrypt aeadFF key0 blob12 = Except.ok (utf8DecodeLossy [255]) :=
  decode_lossy_amended aeadFF key0 blob12 [255] (by decide) rfl

/-! ## Claim C7 — content classification -/

/-- C7: a decrypted plaintext is classified as markup exactly when, after
the JS trim and lowercasing, it starts with `<!doctype` or `<html`;
the spec's two examples classify as stated. -/
theorem classify_markup_rule (s : String) :
    (classify s = ContentClass.markup ↔
      (strStartsWith (jsToLower (jsTrim s)) "<!doctype" = true ∨
       strStartsWith (jsToLower (jsTrim s)) "<html" = true)) ∧
    classify "  <!DOCTYPE html><p>hi</p>" = ContentClass.markup ∧
    classify "plain result text" = ContentClass.text := by
  refine ⟨?_, by decide, by decide⟩
  cases h1 : strStartsWith (jsToLower (jsTrim s)) "<!doctype" <;>
    cases h2 : strStartsWith (jsToLower (jsTrim s)) "<html" <;>
    simp [classify, h1, h2]

/-! ## Claim C4 — key derivation parameters -/

/-- C4: `getKey(id, index)` derives with PBKDF2, password = UTF-8 bytes of
`id`, salt = UTF-8 bytes of `index`, 100000 iterations, PRF
HMAC-SHA-256, and yields a 32-byte (256-bit) non-extractable key bound to
the AES-GCM algorithm with usages decrypt/encrypt only. -/
theorem key_derivation_parameters (id index : String) :
    getKey id index =
      { algName := "AES-GCM"
        algLength := 256
        extractable := false
        usages := ["decrypt", "encrypt"]
        material := pbkdf2HmacSha256 (utf8Encode id) (utf8Encode index) 100000 32 } ∧
    (getKey id index).material.length = 32 ∧
    8 * (getKey id index).material.length = 256 := by
  have hlen : (getKey id index).material.length = 32 := by
    simp only [getKey]
    exact pbkdf2HmacSha256_length_32 _ _ _
  exact ⟨rfl, hlen, by rw [hlen]⟩

/-! ## Claim C8 — locator order sensitivity -/

/-- Strings with equal character data are equal. -/
theorem stringExt {a b : String} (h : a.data = b.data) : a = b := by
  cases a
  cases b
  exact congrArg String.mk h

/-- C8 counterexample: `"x|x" ≠ "x"`, yet swapping index and id gives the
same locator, because both combined strings are `"x|x|x"` — the delimiter
does not prevent cross-pair collisions. -/
theorem locator_order_sensitivity_counterexample :
    ("x|x" : String) ≠ "x" ∧
    getEncryptedFilename "x|x" "x" = getEncryptedFilename "x" "x|x" := by
  refine ⟨by decide, ?_⟩
  unfold getEncryptedFilename
  have h : ("x|x" ++ "|" ++ "x" : String) = "x" ++ "|" ++ "x|x" := by decide
  rw [h]

/-- C8 amended: swapped locators coincide exactly when the rendered digests
of the two combined strings coincide; the mere inequality of the two texts
is not sufficient (see the counterexample), but for the spec's example pair
`"A"`, `"B"` the locators do differ. -/
theorem locator_order_sensitivity_amended (a b : String) :
    (getEncryptedFilename a b = getEncryptedFilename b a ↔
      hexUpper (sha256 (utf8Encode (a ++ "|" ++ b))) =
        hexUpper (sha256 (utf8Encode (b ++ "|" ++ a)))) ∧
    getEncryptedFilename "A" "B" ≠ getEncryptedFilename "B" "A" := by
  constructor
  · unfold getEncryptedFilename
    constructor
    · intro h
      have hd := congrArg String.data h
      rw [String.data_append, String.data_append] at hd
      exact stringExt (List.append_cancel_right hd)
    · intro h
      rw [h]
  · decide

/-! ## Claim C1 — which locator the bytes are fetched for -/

/-- C1 counterexample: two networks that agree at the URL of the claimed
locator `hex(SHA-256("2020123|987654321")) + ".enc"` but differ elsewhere
produce different outcomes in the alternative handler — it fetches bytes
for `getHash("2020123")` (the digest of the index alone, no extension),
not for the claimed locator. -/
theorem locator_fetch_counterexample :
    altNet1 (baseUrl ++ getEncryptedFilename "2020123" "987654321") =
      altNet2 (baseUrl ++ getEncryptedFilename "2020123" "987654321") ∧
    runAlt altNet1 aeadNone "2020123" "987654321" ≠
      runAlt altNet2 aeadNone "2020123" "987654321" := by
  constructor
  · decide
  · decide

/-- C1 amended: the main handler resolves the locator as the 64-character
uppercase hex SHA-256 of `index + "|" + id` with `".enc"` appended and
fetches bytes exactly for it (its outcome depends on the network only
through that one URL); the alternative handler instead fetches bytes for
`getHash(index)` — the digest of the index alone, with no extension. -/
theorem locator_fetch_amended (net net2 : Net) (aead : Aead) (index id : String) :
    getEncryptedFilename index id =
      hexUpper (sha256 (utf8Encode (index ++ "|" ++ id))) ++ ".enc" ∧
    (hexUpper (sha256 (utf8Encode (index ++ "|" ++ id)))).length = 64 ∧
    (net (baseUrl ++ getEncryptedFilename (jsTrim index) (jsTrim id)) =
        net2 (baseUrl ++ getEncryptedFilename (jsTrim index) (jsTrim id)) →
      runMain net aead index id = runMain net2 aead index id) ∧
    (net (baseUrl ++ getHash (jsTrim index)) = net2 (baseUrl ++ getHash (jsTrim index)) →
      runAlt net aead index id = runAlt net2 aead index id) := by
  refine ⟨rfl, by simp [hexUpper_length, sha256_length], ?_, ?_⟩
  · intro h
    simp only [runMain, runMainTrimmed, runResult, fetchFile]
    rw [h]
  · intro h
    simp only [runAlt, runAltTrimmed, runAltResult, fetchFile]
    rw [h]

theorem locator_fetch_amended_witness :
    runMain mainNet1 aeadNone "2020123" "987654321" =
      runMain mainNet2 aeadNone "2020123" "987654321" :=
  (locator_fetch_amended mainNet1 mainNet2 aeadNone "2020123" "987654321").2.2.1 (by decide)

/-! ## Whitespace-trimming lemmas for claim C10 -/

/-- Dropping while `p` holds absorbs a leading segment on which `p` holds
everywhere. -/
theorem dropWhile_ws_append (p : Char → Bool) (w s : List Char)
    (hw : ∀ c ∈ w, p c = true) :
    List.dropWhile p (w ++ s) = List.dropWhile p s := by
  induction w with
  | nil => rfl
  | cons c t ih =>
      simp only [List.cons_append, List.dropWhile_cons, hw c (List.mem_cons_self c t), if_true]
      exact ih fun d hd => hw d (List.mem_cons_of_mem c hd)

/-- A list on which `p` holds everywhere drops to nothing. -/
theorem dropWhile_nil_of_ws (p : Char → Bool) (w : List Char)
    (hw : ∀ c ∈ w, p c = true) :
    List.dropWhile p w = [] := by
  simpa using dropWhile_ws_append p w [] hw

/-- When something survives the drop, an appended tail just rides along. -/
theorem dropWhile_append_of_pos (p : Char → Bool) (s w : List Char)
    (h : List.dropWhile p s ≠ []) :
    List.dropWhile p (s ++ w) = List.dropWhile p s ++ w := by
  rw [List.dropWhile_append]
  simp [List.isEmpty_iff, h]

/-- Surrounding all-whitespace segments do not change the trimmed list. -/
theorem jsTrimList_surround (w1 w2 s : List Char)
    (h1 : ∀ c ∈ w1, isJsWs c = true) (h2 : ∀ c ∈ w2, isJsWs c = true) :
    jsTrimList (w1 ++ (s ++ w2)) = jsTrimList s := by
  unfold jsTrimList
  rw [dropWhile_ws_append _ _ _ h1]
  cases hds : List.dropWhile isJsWs s with
  | nil =>
      have hsw : List.dropWhile isJsWs (s ++ w2) = [] := by
        rw [List.dropWhile_append, hds]
        simp [dropWhile_nil_of_ws _ _ h2]
      rw [hsw]
  | cons c t =>
      have hne : List.dropWhile isJsWs s ≠ [] := by
        rw [hds]
        simp
      rw [dropWhile_append_of_pos _ _ _ hne, hds, List.reverse_append,
        dropWhile_ws_append _ _ _ fun d hd => h2 d (List.mem_reverse.mp hd)]

/-- Surrounding all-whitespace strings do not change the JS-trimmed string. -/
theorem jsTrim_surround (w1 w2 s : String)
    (h1 : w1.data.all isJsWs = true) (h2 : w2.data.all isJsWs = true) :
    jsTrim (w1 ++ s ++ w2) = jsTrim s := by
  unfold jsTrim
  congr 1
  have hd : (w1 ++ s ++ w2).data = w1.data ++ (s.data ++ w2.data) := by
    rw [String.data_append, String.data_append, List.append_assoc]
  rw [hd]
  exact jsTrimList_surround _ _ _
    (fun c hc => (List.all_eq_true.mp h1) c hc)
    (fun c hc => (List.all_eq_true.mp h2) c hc)

/-! ## Claim C10 — input trimming makes surrounding whitespace irrelevant -/

/-- C10: both handlers trim the raw form values first, so inputs differing
only in surrounding whitespace resolve the same locator, derive the same
key, and drive both pipelines to identical outcomes. -/
theorem input_trimming_invariance (net : Net) (aead : Aead)
    (index id w1 w2 w3 w4 : String)
    (h1 : w1.data.all isJsWs = true) (h2 : w2.data.all isJsWs = true)
    (h3 : w3.data.all isJsWs = true) (h4 : w4.data.all isJsWs = true) :
    runMain net aead (w1 ++ index ++ w2) (w3 ++ id ++ w4) = runMain net aead index id ∧
    runAlt net aead (w1 ++ index ++ w2) (w3 ++ id ++ w4) = runAlt net aead index id ∧
    getEncryptedFilename (jsTrim (w1 ++ index ++ w2)) (jsTrim (w3 ++ id ++ w4)) =
      getEncryptedFilename (jsTrim index) (jsTrim id) ∧
    getKey (jsTrim (w3 ++ id ++ w4)) (jsTrim (w1 ++ index ++ w2)) =
      getKey (jsTrim id) (jsTrim index) := by
  have t1 := jsTrim_surround w1 w2 index h1 h2
  have t2 := jsTrim_surround w3 w4 id h3 h4
  refine ⟨?_, ?_, by rw [t1, t2], by rw [t1, t2]⟩
  · unfold runMain
    rw [t1, t2]
  · unfold runAlt
    rw [t1, t2]

theorem input_trimming_invariance_witness :
    runMain altNet2 aeadNone (" " ++ "2020123" ++ " ") ("\t" ++ "987654321" ++ "\n") =
      runMain altNet2 aeadNone "2020123" "987654321" :=
  (input_trimming_invariance altNet2 aeadNone "2020123" "987654321" " " " " "\t" "\n"
    (by decide) (by decide) (by decide) (by decide)).1

/-! ## Claim C9 — failure propagation and scoped cleanup -/

/-- C9: the main handler releases the busy state (loading hidden, submit
re-enabled) on every exit path; on any pipeline failure the final state is
exactly the reset state plus the error banner carrying the failing step's
kind, with no content nodes (no partial plaintext); a fetch failure aborts
before key derivation and decryption, a decrypt failure is surfaced with
its own kind; and the network is consulted only at the single resolved
locator URL, so there is no retry against any other resource. -/
theorem pipeline_failure_and_cleanup (net : Net) (aead : Aead) (rawIndex rawId : String) :
    (runMain net aead rawIndex rawId).loadingShown = false ∧
    (runMain net aead rawIndex rawId).submitDisabled = false ∧
    (∀ e, runResult net aead (jsTrim rawIndex) (jsTrim rawId) = Except.error e →
      runMain net aead rawIndex rawId =
        { resetUI with
            loadingShown := false
            submitDisabled := false
            errorShown := true
            errorText := "Error: " ++ pipeErrorMessage e }) ∧
    (∀ m, fetchFile net (getEncryptedFilename (jsTrim rawIndex) (jsTrim rawId)) =
        Except.error m →
      runResult net aead (jsTrim rawIndex) (jsTrim rawId) =
        Except.error (PipeError.fetchStep m)) ∧
    (∀ bytes e,
      fetchFile net (getEncryptedFilename (jsTrim rawIndex) (jsTrim rawId)) = Except.ok bytes →
      decrypt aead (getKey (jsTrim rawId) (jsTrim rawIndex)) bytes = Except.error e →
      runResult net aead (jsTrim rawIndex) (jsTrim rawId) =
        Except.error (PipeError.decryptStep e)) ∧
    (∀ net2 : Net,
      net2 (baseUrl ++ getEncryptedFilename (jsTrim rawIndex) (jsTrim rawId)) =
        net (baseUrl ++ getEncryptedFilename (jsTrim rawIndex) (jsTrim rawId)) →
      runMain net2 aead rawIndex rawId = runMain net aead rawIndex rawId) := by
  refine ⟨rfl, rfl, ?_, ?_, ?_, ?_⟩
  · intro e he
    simp [runMain, runMainTrimmed, he]
  · intro m hm
    simp [runResult, hm]
  · intro bytes e hb hd
    simp [runResult, hb, hd]
  · intro net2 h
    simp only [runMain, runMainTrimmed, runResult, fetchFile]
    rw [h]

theorem pipeline_failure_and_cleanup_witness :
    (runMain altNet2 aeadNone "2020123" "987654321").loadingShown = false ∧
    (runMain altNet2 aeadNone "2020123" "987654321").submitDisabled = false ∧
    runMain altNet2 aeadNone "2020123" "987654321" =
      { resetUI with
          loadingShown := false
          submitDisabled := false
          errorShown := true
          errorText := "Error: Failed to fetch file: 404 B" } := by
  obtain ⟨ha, hb, hc, hd, -, -⟩ :=
    pipeline_failure_and_cleanup altNet2 aeadNone "2020123" "987654321"
  exact ⟨ha, hb, hc _ (hd "Failed to fetch file: 404 B" (by rfl))⟩
